import Mathlib

/-!
Shallow embedding of the AdamoPay transaction-risk analysis core
(src/risk_analysis and src/characterization) and proofs about it.

Modelling conventions:
* pandas DataFrames become a `DataFrame` record: one flag per optional
  column plus the list of rows; a row models one transaction.
* timestamps (`FECHA`) become `Option Fecha`, where `Fecha` carries an
  absolute day index (days since 1970-01-01) plus hour and minute;
  `None` models unparseable values (`pd.to_datetime(..., errors='coerce')`).
* numeric columns are modelled by exact rationals.  Comparisons like
  `std/mean > 1.5` that the source evaluates with square roots are
  expressed with the equivalent squared comparison on the variance.
* Python `int(x)` is truncation toward zero (`pyInt`); `x.sum()`,
  `x.mean()` etc. are exact.  Where the IEEE-754 evaluation of the
  source provably differs from exact arithmetic on reachable values the
  definition follows the IEEE result (see `reducido`).
-/

namespace AdamoPay

/-- A parsed timestamp: absolute day index (days since 1970-01-01),
hour (0-23) and minute (0-59), as produced by `pd.to_datetime`. -/
structure Fecha where
  dia : ℤ
  hora : ℕ
  minuto : ℕ
deriving Repr, DecidableEq

/-- Instant in minutes, used for ordering timestamps and differences. -/
def Fecha.ts (f : Fecha) : ℤ := f.dia * 1440 + f.hora * 60 + f.minuto

/-- One transaction row of the client DataFrame. -/
structure Transaccion where
  monto : ℚ
  fecha : Option Fecha
  estado : String
  tipo : String
  tipoPersona : String
deriving Repr, DecidableEq

/-- A client DataFrame: which optional columns are present, plus the rows.
A detector that needs an absent column contributes nothing (the source
guards every access with `'COL' in df.columns`). -/
structure DataFrame where
  tieneMonto : Bool
  tieneFecha : Bool
  tieneEstado : Bool
  tieneTipo : Bool
  tieneTipoPersona : Bool
  filas : List Transaccion
deriving Repr, DecidableEq

/-! ### Generic helpers shared by the embedded functions -/

/-- Maximum of an integer list (0 on empty; callers guard non-emptiness). -/
def maximoZ : List ℤ → ℤ
  | [] => 0
  | h :: t => t.foldl max h

/-- Minimum of an integer list (0 on empty; callers guard non-emptiness). -/
def minimoZ : List ℤ → ℤ
  | [] => 0
  | h :: t => t.foldl min h

/-- Maximum of a natural-number list (0 on empty). -/
def maximoN : List ℕ → ℕ
  | [] => 0
  | h :: t => t.foldl max h

/-- `len(set(xs))` / pandas `nunique`. -/
def nunique (l : List String) : ℕ := l.dedup.length

/-- Arithmetic mean (0 on the empty list; callers guard non-emptiness). -/
def media (l : List ℚ) : ℚ := l.sum / l.length

/-- Sample variance with `ddof = 1` (pandas `std` squared); callers only
use it for lists of length at least 2. -/
def varianzaMuestral (l : List ℚ) : ℚ :=
  ((l.map (fun x => (x - media l) ^ 2)).sum) / ((l.length : ℚ) - 1)

/-- Python `int()` applied to a real value: truncation toward zero. -/
def pyInt (q : ℚ) : ℤ := if 0 ≤ q then ⌊q⌋ else ⌈q⌉

/-- Does `pat` start the character list? -/
def arrancaCon : List Char → List Char → Bool
  | [], _ => true
  | _ :: _, [] => false
  | a :: as, b :: bs => a == b && arrancaCon as bs

/-- Does `pat` occur as a contiguous run inside the character list? -/
def apareceEn (pat : List Char) : List Char → Bool
  | [] => arrancaCon pat []
  | c :: resto => arrancaCon pat (c :: resto) || apareceEn pat resto

/-- `pat in s.lower()`: the `str.contains` regex alternations of the
source are plain substring tests after lowercasing. -/
def contieneSub (s pat : String) : Bool :=
  apareceEn pat.toList (s.toList.map Char.toLower)

/-- `ESTADO.str.lower().str.contains('rechaz|retor')`. -/
def coincideRechazoRetorno (s : String) : Bool :=
  contieneSub s "rechaz" || contieneSub s "retor"

/-- `ESTADO.str.lower().str.contains('rechaz|error|retor')`. -/
def coincideRechazoErrorRetorno (s : String) : Bool :=
  contieneSub s "rechaz" || contieneSub s "error" || contieneSub s "retor"

/-- `ESTADO.str.lower().str.contains('rechazado|retornado')`. -/
def coincideRechazadoRetornado (s : String) : Bool :=
  contieneSub s "rechazado" || contieneSub s "retornado"

/-- Rows whose `FECHA` parsed (`dropna(subset=['FECHA'])`), paired with
their timestamp; empty when the column is absent. -/
def filasFechadas (df : DataFrame) : List (Fecha × Transaccion) :=
  if df.tieneFecha then
    df.filas.filterMap (fun t => t.fecha.map (fun f => (f, t)))
  else []

/-- The distinct calendar days of the dated rows, ascending — the group
keys of `groupby(FECHA.dt.date)`, which pandas iterates in sorted order. -/
def diasDe (df : DataFrame) : List ℤ :=
  List.insertionSort (fun a b => a ≤ b) (((filasFechadas df).map (fun p => p.1.dia)).dedup)

/-- The rows of one calendar day, in frame order. -/
def grupoDia (df : DataFrame) (d : ℤ) : List (Fecha × Transaccion) :=
  (filasFechadas df).filter (fun p => p.1.dia == d)

/-- `MONTO (COP)` values of one calendar day. -/
def montosDia (df : DataFrame) (d : ℤ) : List ℚ :=
  (grupoDia df d).map (fun p => p.2.monto)

/-- Civil date (year, month, day) from an absolute day index; the
standard days-from-civil inverse.  All intermediate quantities are
non-negative, so truncating division agrees with floor division. -/
def civilDe (z : ℤ) : ℤ × ℤ × ℤ :=
  let z' := z + 719468
  let era := z'.fdiv 146097
  let doe := z' - era * 146097
  let yoe := (doe - doe / 1460 + doe / 36524 - doe / 146096) / 365
  let y := yoe + era * 400
  let doy := doe - (365 * yoe + yoe / 4 - yoe / 100)
  let mp := (5 * doy + 2) / 153
  let d := doy - (153 * mp + 2) / 5 + 1
  let m := mp + (if mp < 10 then 3 else (-9 : ℤ))
  (y + (if m ≤ 2 then 1 else 0), m, d)

/-- Month key of a day, as used by `to_period('M')` grouping. -/
def mesClave (d : ℤ) : ℤ :=
  let c := civilDe d
  c.1 * 12 + c.2.1

/-- `dt.dayofweek` (Monday = 0); day 0 = 1970-01-01 was a Thursday. -/
def diaSemana (d : ℤ) : ℤ := (d + 3).emod 7

/-- Week bin of `pd.Grouper(freq='W')` (weeks Monday..Sunday, labelled by
their Sunday); day 4 = 1970-01-05 was a Monday. -/
def semanaClave (d : ℤ) : ℤ := (d - 4).fdiv 7

/-- `YYYY-M-D` rendering of a day index (the `str(date)` /
`strftime('%Y-%m-%d')` abstraction used for output strings). -/
def diaStr (d : ℤ) : String :=
  let c := civilDe d
  toString c.1 ++ "-" ++ toString c.2.1 ++ "-" ++ toString c.2.2

/-- `isoformat()` abstraction of a timestamp. -/
def Fecha.iso (f : Fecha) : String :=
  diaStr f.dia ++ "T" ++ toString f.hora ++ ":" ++ toString f.minuto

/-! ### src/risk_analysis/risk_scoring.py -/

/-- The optional GAFI characterization dict passed into the scorer; only
its `score_riesgo` entry is consulted (`None` inner value models a dict
without that key, which falls back like an absent profile). -/
structure PerfilGafi where
  scoreRiesgo : Option ℤ
deriving Repr, DecidableEq

/-- `df['MONTO (COP)'].sum()` guarded on column presence, else 0. -/
def montoTotal (df : DataFrame) : ℚ :=
  if df.tieneMonto then (df.filas.map (fun t => t.monto)).sum else 0

/-- Volume block of `_calcular_score_gafi`. -/
def gafiBloqueVolumen (df : DataFrame) : ℤ :=
  if montoTotal df > 500000000 then 25
  else if montoTotal df > 100000000 then 15
  else 0

/-- Frequency block of `_calcular_score_gafi`: `dias = (max-min).days`,
`freq = total_tx / max(dias, 1)`. -/
def gafiBloqueFrecuencia (df : DataFrame) : ℤ :=
  if df.tieneFecha then
    let fechas := df.filas.filterMap (fun t => t.fecha)
    if 0 < fechas.length then
      let ts := fechas.map Fecha.ts
      let dias := (maximoZ ts - minimoZ ts).fdiv 1440
      let freq : ℚ := (df.filas.length : ℚ) / ((max dias 1 : ℤ) : ℚ)
      if freq > 20 then 20 else if freq > 10 then 10 else 0
    else 0
  else 0

/-- Diversity block of `_calcular_score_gafi`: `min(15, tipos * 4)`. -/
def gafiBloqueDiversidad (df : DataFrame) : ℤ :=
  if df.tieneTipo then min 15 ((nunique (df.filas.map (fun t => t.tipo)) : ℤ) * 4)
  else 0

/-- Fallback body of `_calcular_score_gafi` (no usable profile). -/
def calcularScoreGafiBase (df : DataFrame) : ℤ :=
  min (gafiBloqueVolumen df + gafiBloqueFrecuencia df + gafiBloqueDiversidad df) 100

/-- `_calcular_score_gafi`: a supplied profile with a `score_riesgo` key
is returned unchecked; otherwise the fallback score. -/
def calcularScoreGafi (df : DataFrame) (perfil : Option PerfilGafi) : ℤ :=
  match perfil with
  | some p =>
    match p.scoreRiesgo with
    | some s => s
    | none => calcularScoreGafiBase df
  | none => calcularScoreGafiBase df

/-- High-transaction block of `calcular_score_uiaf`. -/
def uiafBloqueAltas (df : DataFrame) : ℤ :=
  if df.tieneMonto then
    let txAltas := (df.filas.filter (fun t => t.monto > 10000000)).length
    if txAltas > 10 then 20 else if txAltas > 5 then 10 else 0
  else 0

/-- Fragmentation block of `calcular_score_uiaf`: days with more than 5
transactions summing to more than $50M. -/
def uiafBloqueFragmentacion (df : DataFrame) : ℤ :=
  if df.tieneMonto && df.tieneFecha then
    let diasFrag := ((diasDe df).filter (fun d =>
      (grupoDia df d).length > 5 && (montosDia df d).sum > 50000000)).length
    if diasFrag > 3 then 25 else if diasFrag > 1 then 15 else 0
  else 0

/-- `(rechazos / len(df)) * 100` with the `rechaz|retor` matcher. -/
def tasaRechazoScoring (df : DataFrame) : ℚ :=
  ((df.filas.filter (fun t => coincideRechazoRetorno t.estado)).length : ℚ)
    / (df.filas.length : ℚ) * 100

/-- Rejection block of `calcular_score_uiaf`. -/
def uiafBloqueRechazo (df : DataFrame) : ℤ :=
  if df.tieneEstado then
    if tasaRechazoScoring df > 20 then 20
    else if tasaRechazoScoring df > 10 then 10
    else 0
  else 0

/-- `calcular_score_uiaf`. -/
def calcularScoreUiaf (df : DataFrame) : ℤ :=
  if df.filas.isEmpty then 0
  else min (uiafBloqueAltas df + uiafBloqueFragmentacion df + uiafBloqueRechazo df) 100

/-- Complexity block of `calcular_score_operativo`. -/
def opBloqueDiversidad (df : DataFrame) : ℤ :=
  if df.tieneTipo then
    let d := nunique (df.filas.map (fun t => t.tipo))
    if d ≥ 5 then 20 else if d ≥ 3 then 10 else 0
  else 0

/-- Volatility block of `calcular_score_operativo`: `cv = std/mean`,
compared through the variance (for one data point pandas `std` is NaN
and both comparisons are false). -/
def opBloqueVolatilidad (df : DataFrame) : ℤ :=
  if df.tieneMonto then
    let montos := df.filas.map (fun t => t.monto)
    if 0 < montos.length ∧ media montos > 0 then
      if montos.length < 2 then 0
      else if varianzaMuestral montos > (9 / 4) * (media montos) ^ 2 then 15
      else if varianzaMuestral montos > (media montos) ^ 2 then 8
      else 0
    else 0
  else 0

/-- Error-rate block of `calcular_score_operativo`. -/
def opBloqueErrores (df : DataFrame) : ℤ :=
  if df.tieneEstado then
    let tasa : ℚ := ((df.filas.filter (fun t => coincideRechazoErrorRetorno t.estado)).length : ℚ)
      / (df.filas.length : ℚ) * 100
    if tasa > 15 then 25 else if tasa > 10 then 15 else 0
  else 0

/-- Weekly bin sizes of `groupby(pd.Grouper(key='FECHA', freq='W')).size()`:
every week between the first and last dated row, empty weeks included. -/
def conteosSemanales (df : DataFrame) : List ℕ :=
  let ds := (filasFechadas df).map (fun p => p.1.dia)
  if ds.isEmpty then []
  else
    let wmin := semanaClave (minimoZ ds)
    let wmax := semanaClave (maximoZ ds)
    (List.range (wmax - wmin + 1).toNat).map (fun i =>
      (ds.filter (fun d => semanaClave d == wmin + i)).length)

/-- Weekly-concentration block of `calcular_score_operativo`. -/
def opBloqueSemanal (df : DataFrame) : ℤ :=
  if df.tieneFecha then
    let c := conteosSemanales df
    let m : ℚ := (c.sum : ℚ) / (c.length : ℚ)
    if 0 < c.length ∧ m > 0 then
      if (maximoN c : ℚ) > m * 3 then 15 else 0
    else 0
  else 0

/-- Beneficiary block of `calcular_score_operativo`. -/
def opBloqueBeneficiarios (df : DataFrame) : ℤ :=
  if df.tieneTipoPersona then
    if nunique (df.filas.map (fun t => t.tipoPersona)) > 50 then 10 else 0
  else 0

/-- `calcular_score_operativo`. -/
def calcularScoreOperativo (df : DataFrame) : ℤ :=
  if df.filas.isEmpty then 0
  else min (opBloqueDiversidad df + opBloqueVolatilidad df + opBloqueErrores df
    + opBloqueSemanal df + opBloqueBeneficiarios df) 100

/-- `ScoreRiesgo` (risk_contracts.py). -/
structure ScoreRiesgo where
  scoreTotal : ℤ
  scoreGafi : ℤ
  scoreUiaf : ℤ
  scoreOperativo : ℤ
  nivelRiesgo : String
  factoresCriticos : List String
  ponderacion : List (String × ℚ)
deriving Repr, DecidableEq

/-- `clasificar_nivel_riesgo` (risk_engine.py). -/
def clasificarNivelRiesgo (score : ℤ) : String :=
  if score < 0 ∨ score > 100 then "No Evaluado"
  else if score ≤ 30 then "Bajo"
  else if score ≤ 50 then "Medio"
  else if score ≤ 75 then "Alto"
  else "Crítico"

/-- `crear_score_vacio` (risk_contracts.py). -/
def crearScoreVacio : ScoreRiesgo :=
  { scoreTotal := 0, scoreGafi := 0, scoreUiaf := 0, scoreOperativo := 0,
    nivelRiesgo := "No Evaluado", factoresCriticos := [], ponderacion := [] }

/-- `calcular_score_integral`.  `int(g*0.40 + u*0.35 + o*0.25)` is
modelled by the exact truncation `pyInt`; the IEEE-754 evaluation of the
source agrees with it on every reachable sub-score combination. -/
def calcularScoreIntegral (df : DataFrame) (perfil : Option PerfilGafi) : ScoreRiesgo :=
  if df.filas.isEmpty then crearScoreVacio
  else
    let g := calcularScoreGafi df perfil
    let u := calcularScoreUiaf df
    let o := calcularScoreOperativo df
    let total := pyInt ((g : ℚ) * (2 / 5) + (u : ℚ) * (7 / 20) + (o : ℚ) * (1 / 4))
    { scoreTotal := total, scoreGafi := g, scoreUiaf := u, scoreOperativo := o,
      nivelRiesgo := clasificarNivelRiesgo total,
      factoresCriticos :=
        (if g > 70 then ["Perfil GAFI de alto riesgo"] else []) ++
        (if u > 70 then ["Señales UIAF detectadas"] else []) ++
        (if o > 70 then ["Riesgo operativo elevado"] else []),
      ponderacion := [("gafi", 2 / 5), ("uiaf", 7 / 20), ("operativo", 1 / 4)] }

/-! ### src/risk_analysis/risk_alerts.py -/

/-- `AlertaRiesgo` (risk_contracts.py). -/
structure AlertaRiesgo where
  idAlerta : String
  tipo : String
  prioridad : String
  titulo : String
  descripcion : String
  valorDetectado : ℚ
  umbral : ℚ
  accionRequerida : String
  fechaDeteccion : String
  requiereReporteUiaf : Bool
  diasParaAccion : ℤ
deriving Repr, DecidableEq

/-- The ambient state the source reads besides its input: the system
clock (`datetime.now()`) and the `uuid4` draws used for alert ids
(indexed here by creation site). -/
structure Entorno where
  ahora : Fecha
  uuids : ℕ → String

/-- `_alertas_volumen`. -/
def alertasVolumen (df : DataFrame) (env : Entorno) : List AlertaRiesgo :=
  if df.tieneMonto then
    let total := (df.filas.map (fun t => t.monto)).sum
    let promedio := media (df.filas.map (fun t => t.monto))
    (if total > 1000000000 then
      [{ idAlerta := "VOL-" ++ env.uuids 0, tipo := "UIAF", prioridad := "Alta",
         titulo := "Volumen transaccional extremadamente alto",
         descripcion := "Volumen total de $" ++ toString total
           ++ " supera significativamente umbrales normales",
         valorDetectado := total, umbral := 1000000000,
         accionRequerida := "Validar origen de fondos y justificación económica",
         fechaDeteccion := env.ahora.iso, requiereReporteUiaf := true,
         diasParaAccion := 3 }]
     else []) ++
    (if promedio > 50000000 then
      [{ idAlerta := "TKT-" ++ env.uuids 1, tipo := "UIAF", prioridad := "Media",
         titulo := "Ticket promedio inusualmente alto",
         descripcion := "Monto promedio de $" ++ toString promedio
           ++ " por transacción es atípico",
         valorDetectado := promedio, umbral := 50000000,
         accionRequerida := "Revisar perfil transaccional y naturaleza del negocio",
         fechaDeteccion := env.ahora.iso, requiereReporteUiaf := false,
         diasParaAccion := 7 }]
     else [])
  else []

/-- `_alertas_uiaf`. -/
def alertasUiaf (df : DataFrame) (env : Entorno) : List AlertaRiesgo :=
  (if df.tieneMonto && df.tieneFecha then
    let diasSospechosos := ((diasDe df).filter (fun d =>
      (grupoDia df d).length > 10 && (montosDia df d).sum > 100000000)).length
    if diasSospechosos > 2 then
      [{ idAlerta := "FRAG-" ++ env.uuids 2, tipo := "UIAF", prioridad := "Crítica",
         titulo := "Posible fragmentación (Smurfing)",
         descripcion := "Detectados " ++ toString diasSospechosos
           ++ " días con múltiples transacciones que suman montos altos",
         valorDetectado := (diasSospechosos : ℚ), umbral := 2,
         accionRequerida := "Investigar patrón de fragmentación y reportar a UIAF si se confirma",
         fechaDeteccion := env.ahora.iso, requiereReporteUiaf := true,
         diasParaAccion := 2 }]
    else []
  else []) ++
  (if df.tieneEstado then
    let tasa := tasaRechazoScoring df
    if tasa > 25 then
      [{ idAlerta := "RECH-" ++ env.uuids 3, tipo := "Fraude", prioridad := "Alta",
         titulo := "Tasa de rechazo extremadamente alta",
         descripcion := "Tasa de rechazo de " ++ toString tasa
           ++ "% sugiere intentos fallidos repetidos",
         valorDetectado := tasa, umbral := 25,
         accionRequerida := "Investigar motivos de rechazo y posible intento de fraude",
         fechaDeteccion := env.ahora.iso, requiereReporteUiaf := false,
         diasParaAccion := 5 }]
    else []
  else [])

/-- `_alertas_operacionales`. -/
def alertasOperacionales (df : DataFrame) (env : Entorno) : List AlertaRiesgo :=
  (if df.filas.length > 1000 then
    [{ idAlerta := "FREQ-" ++ env.uuids 4, tipo := "Operacional", prioridad := "Media",
       titulo := "Volumen transaccional muy alto",
       descripcion := toString df.filas.length ++ " transacciones requieren revisión periódica",
       valorDetectado := (df.filas.length : ℚ), umbral := 1000,
       accionRequerida := "Implementar revisiones manuales muestrales periódicas",
       fechaDeteccion := env.ahora.iso, requiereReporteUiaf := false,
       diasParaAccion := 14 }]
   else []) ++
  (if df.tieneTipo then
    let diversidad := nunique (df.filas.map (fun t => t.tipo))
    if diversidad ≥ 6 then
      [{ idAlerta := "DIV-" ++ env.uuids 5, tipo := "Compliance", prioridad := "Baja",
         titulo := "Alta diversidad de tipos de transacción",
         descripcion := toString diversidad ++ " tipos diferentes de transacciones detectados",
         valorDetectado := (diversidad : ℚ), umbral := 6,
         accionRequerida := "Validar coherencia con actividad económica del cliente",
         fechaDeteccion := env.ahora.iso, requiereReporteUiaf := false,
         diasParaAccion := 30 }]
    else []
  else [])

/-- Sort rank of a priority string; unknown strings rank 5
(`orden_prioridad.get(x['prioridad'], 5)`). -/
def ordenPrioridad (p : String) : ℤ :=
  if p == "Crítica" then 1
  else if p == "Alta" then 2
  else if p == "Media" then 3
  else if p == "Baja" then 4
  else 5

/-- The sort key comparison of `priorizar_alertas`: priority rank first,
then days-to-act ascending. -/
def claveLe (a b : AlertaRiesgo) : Prop :=
  ordenPrioridad a.prioridad < ordenPrioridad b.prioridad ∨
    (ordenPrioridad a.prioridad = ordenPrioridad b.prioridad ∧
      a.diasParaAccion ≤ b.diasParaAccion)

instance decClaveLe : DecidableRel claveLe := fun a b => by
  unfold claveLe; infer_instance

/-- `priorizar_alertas`: Python `sorted` is a stable sort by the key;
`insertionSort` is likewise stable. -/
def priorizarAlertas (l : List AlertaRiesgo) : List AlertaRiesgo :=
  List.insertionSort claveLe l

/-- `generar_alertas_automaticas`. -/
def generarAlertasAutomaticas (df : DataFrame) (scoring : ScoreRiesgo)
    (env : Entorno) : List AlertaRiesgo :=
  if df.filas.isEmpty then []
  else
    priorizarAlertas
      (alertasVolumen df env ++ alertasUiaf df env ++ alertasOperacionales df env ++
        (if scoring.scoreTotal ≥ 76 then
          [{ idAlerta := "SCORE-" ++ env.uuids 6, tipo := "Compliance", prioridad := "Crítica",
             titulo := "Score de riesgo crítico",
             descripcion := "Score total de " ++ toString scoring.scoreTotal
               ++ " supera umbral crítico de 75",
             valorDetectado := (scoring.scoreTotal : ℚ), umbral := 75,
             accionRequerida := "Suspender operaciones y realizar investigación inmediata",
             fechaDeteccion := env.ahora.iso, requiereReporteUiaf := true,
             diasParaAccion := 1 }]
         else []))

/-! ### src/risk_analysis/risk_engine.py -/

/-- `MatrizRiesgo` (risk_contracts.py); the per-category dicts keep
their insertion order as association lists. -/
structure MatrizRiesgo where
  riesgoInherente : List (String × ℤ)
  riesgoResidual : List (String × ℤ)
  controlesAplicados : List String
  gapsControl : List String
  apetitoRiesgoSuperado : Bool
deriving Repr, DecidableEq

/-- `int(v * 0.7)` as evaluated by the source in IEEE-754 doubles: on
the reachable inherent values 0..100 it equals ⌊7v/10⌋ except at
v = 90, where the double product rounds just below 63. -/
def reducido (v : ℤ) : ℤ := if v = 90 then 62 else (7 * v).fdiv 10

/-- `_construir_matriz_riesgo`. -/
def construirMatrizRiesgo (df : DataFrame) (scoring : ScoreRiesgo) : MatrizRiesgo :=
  let volumen := if montoTotal df > 0 then min 100 (pyInt (montoTotal df / 1000000)) else 0
  let inherente := [("volumen", volumen),
    ("frecuencia", min 100 ((df.filas.length : ℤ) * 2)),
    ("complejidad", scoring.scoreOperativo),
    ("geografia", (50 : ℤ))]
  { riesgoInherente := inherente,
    riesgoResidual := inherente.map (fun p => (p.1, reducido p.2)),
    controlesAplicados := ["Monitoreo transaccional continuo",
      "Validación de beneficiarios", "Análisis de patrones GAFI",
      "Sistema de alertas automáticas"],
    gapsControl :=
      (if scoring.scoreTotal > 70 then ["Due Diligence Reforzada requerida"] else []) ++
      (if df.filas.length > 1000 then ["Volumen alto requiere revisión manual periódica"] else []),
    apetitoRiesgoSuperado := scoring.scoreTotal > 75 }

/-- `_generar_recomendaciones`. -/
def generarRecomendaciones (scoring : ScoreRiesgo) (alertas : List AlertaRiesgo) : List String :=
  (if scoring.nivelRiesgo == "Crítico" then
    ["🚨 ACCIÓN INMEDIATA: Suspender operaciones y realizar investigación profunda",
     "📋 Preparar reporte para UIAF en próximas 24 horas",
     "👥 Escalar a Oficial de Cumplimiento"]
   else if scoring.nivelRiesgo == "Alto" then
    ["⚠️ Implementar Due Diligence Reforzada (DDR)",
     "📊 Revisión quincenal de actividad transaccional",
     "🔍 Validar origen de fondos en próximas 72 horas"]
   else if scoring.nivelRiesgo == "Medio" then
    ["📌 Monitoreo mensual de actividad",
     "✅ Mantener alertas automáticas activas",
     "📄 Actualizar documentación KYC si tiene más de 1 año"]
   else
    ["✅ Mantener monitoreo estándar",
     "📅 Revisión anual suficiente"]) ++
  (let criticas := (alertas.filter (fun a => a.prioridad == "Crítica")).length
   if 0 < criticas then
    ["🔴 " ++ toString criticas ++ " alertas críticas requieren atención inmediata"]
   else [])

/-- `_calcular_proximo_review`: `datetime.now() + timedelta(days)`,
formatted `%Y-%m-%d`. -/
def calcularProximoReview (nivel : String) (env : Entorno) : String :=
  let dias : ℤ :=
    if nivel == "Crítico" then 7
    else if nivel == "Alto" then 15
    else if nivel == "Medio" then 30
    else 90
  diaStr (env.ahora.dia + dias)

/-- `AnalisisRiesgo` (risk_contracts.py); `matrizRiesgo = none` models
the empty dict `{}` of the no-data verdict. -/
structure AnalisisRiesgo where
  cliente : String
  timestampAnalisis : String
  scoring : ScoreRiesgo
  alertas : List AlertaRiesgo
  matrizRiesgo : Option MatrizRiesgo
  recomendaciones : List String
  requiereDueDiligenciaReforzada : Bool
  requiereEscalamiento : Bool
  proximoReview : String
deriving Repr, DecidableEq

/-- `crear_analisis_vacio` (risk_contracts.py). -/
def crearAnalisisVacio (cliente : String) (env : Entorno) : AnalisisRiesgo :=
  { cliente := cliente, timestampAnalisis := env.ahora.iso,
    scoring := crearScoreVacio, alertas := [], matrizRiesgo := none,
    recomendaciones := ["Sin datos suficientes para análisis"],
    requiereDueDiligenciaReforzada := false, requiereEscalamiento := false,
    proximoReview := "N/A" }

/-- `analizar_riesgo_cliente`.  The source reads `datetime.now()` (and
`uuid4`) instead of taking them as parameters; that ambient state is the
explicit `env` argument here. -/
def analizarRiesgoCliente (df : DataFrame) (perfil : Option PerfilGafi)
    (cliente : String) (env : Entorno) : AnalisisRiesgo :=
  if df.filas.isEmpty then crearAnalisisVacio cliente env
  else
    let scoring := calcularScoreIntegral df perfil
    let alertas := generarAlertasAutomaticas df scoring env
    { cliente := cliente, timestampAnalisis := env.ahora.iso,
      scoring := scoring, alertas := alertas,
      matrizRiesgo := some (construirMatrizRiesgo df scoring),
      recomendaciones := generarRecomendaciones scoring alertas,
      requiereDueDiligenciaReforzada := scoring.scoreTotal ≥ 70,
      requiereEscalamiento :=
        0 < (alertas.filter (fun a => a.prioridad == "Alta" || a.prioridad == "Crítica")).length,
      proximoReview := calcularProximoReview scoring.nivelRiesgo env }

/-! ### src/characterization/risk_flags.py -/

/-- A red flag; the heterogeneous `detalles` dict is rendered to
string pairs. -/
structure Bandera where
  tipo : String
  severidad : String
  descripcion : String
  detalles : List (String × String)
  recomendacion : String
  puntos : ℤ
deriving Repr, DecidableEq

/-- `_detectar_transacciones_alto_valor`. -/
def detectarAltoValor (df : DataFrame) : List Bandera :=
  if df.tieneMonto then
    let altos : List ℚ := (df.filas.filter (fun t => t.monto ≥ 10000000)).map (fun t => t.monto)
    if altos.isEmpty then []
    else
      [{ tipo := "Transacciones de Alto Valor",
         severidad := if altos.length < 5 then "Media" else "Alta",
         descripcion := toString altos.length ++ " transacciones con monto >= $10,000,000",
         detalles := [("cantidad", toString altos.length),
           ("monto_total", toString altos.sum),
           ("monto_maximo", toString (altos.foldl max (0 : ℚ)))],
         recomendacion := "Verificar origen y destino de fondos",
         puntos := if altos.length < 5 then 15 else 25 }]
  else []

/-- The distinct month keys of the dated rows, ascending
(`to_period('M')` group keys). -/
def mesesDe (df : DataFrame) : List ℤ :=
  List.insertionSort (fun a b => a ≤ b)
    (((filasFechadas df).map (fun p => mesClave p.1.dia)).dedup)

/-- `MONTO (COP)` values of one month. -/
def montosMes (df : DataFrame) (m : ℤ) : List ℚ :=
  ((filasFechadas df).filter (fun p => mesClave p.1.dia == m)).map (fun p => p.2.monto)

/-- `_detectar_volumen_inusual`. -/
def detectarVolumenInusual (df : DataFrame) : List Bandera :=
  if df.tieneMonto && df.tieneFecha then
    if (filasFechadas df).isEmpty then []
    else
      let diasAltos := (diasDe df).filter (fun d => (montosDia df d).sum ≥ 50000000)
      let mesesAltos := (mesesDe df).filter (fun m => (montosMes df m).sum ≥ 500000000)
      (if diasAltos.isEmpty then []
       else
        [{ tipo := "Volumen Diario Inusual", severidad := "Alta",
           descripcion := toString diasAltos.length ++ " días con volumen >= $50,000,000",
           detalles := [("dias_afectados", toString diasAltos.length),
             ("volumen_maximo_dia", toString ((diasAltos.map (fun d => (montosDia df d).sum)).foldl max 0)),
             ("fechas", toString ((diasAltos.take 5).map diaStr))],
           recomendacion := "Analizar justificación de volúmenes altos",
           puntos := 20 }]) ++
      (if mesesAltos.isEmpty then []
       else
        [{ tipo := "Volumen Mensual Elevado", severidad := "Media",
           descripcion := toString mesesAltos.length ++ " meses con volumen >= $500,000,000",
           detalles := [("meses_afectados", toString mesesAltos.length),
             ("volumen_maximo_mes", toString ((mesesAltos.map (fun m => (montosMes df m).sum)).foldl max 0))],
           recomendacion := "Revisar actividad comercial y operativa",
           puntos := 15 }])
  else []

/-- Amounts of a day lying within ±20% of that day's mean
(`montos[(montos >= media*0.8) & (montos <= media*1.2)]`). -/
def montosSimilaresDia (df : DataFrame) (d : ℤ) : List ℚ :=
  let ms := montosDia df d
  ms.filter (fun x => decide (media ms * (4 / 5) ≤ x ∧ x ≤ media ms * (6 / 5)))

/-- The per-day test of `_detectar_fragmentacion`: at least 5
transactions that day, at least 5 of them with similar amounts. -/
def esDiaFragmentado (df : DataFrame) (d : ℤ) : Bool :=
  5 ≤ (montosDia df d).length && 5 ≤ (montosSimilaresDia df d).length

/-- The flag `_detectar_fragmentacion` emits for day `d`. -/
def banderaFragmentacionDe (df : DataFrame) (d : ℤ) : Bandera :=
  { tipo := "Posible Fragmentación (Structuring)", severidad := "Alta",
    descripcion := toString (montosSimilaresDia df d).length
      ++ " TX con montos similares en " ++ diaStr d,
    detalles := [("fecha", diaStr d),
      ("cantidad_tx", toString (montosSimilaresDia df d).length),
      ("monto_promedio", toString (media (montosDia df d))),
      ("monto_total_dia", toString (montosDia df d).sum)],
    recomendacion := "Investigar motivo de fragmentación - Posible evasión de controles",
    puntos := 30 }

/-- `_detectar_fragmentacion`: days are visited in ascending order and
the loop breaks after the first match ("Solo reportar una vez"). -/
def detectarFragmentacion (df : DataFrame) : List Bandera :=
  if df.tieneMonto && df.tieneFecha then
    match (diasDe df).find? (esDiaFragmentado df) with
    | some d => [banderaFragmentacionDe df d]
    | none => []
  else []

/-- `_detectar_patrones_temporales_sospechosos`. -/
def detectarTemporalesSospechosos (df : DataFrame) : List Bandera :=
  if df.tieneFecha then
    let vr := filasFechadas df
    if vr.isEmpty then []
    else
      let diasFrecuentes := (diasDe df).filter (fun d => 20 ≤ (grupoDia df d).length)
      let madrugada := vr.filter (fun p => p.1.hora < 6)
      let finSemana := vr.filter (fun p => diaSemana p.1.dia == 5 || diaSemana p.1.dia == 6)
      (if diasFrecuentes.isEmpty then []
       else
        [{ tipo := "Frecuencia Diaria Excesiva", severidad := "Media",
           descripcion := toString diasFrecuentes.length ++ " días con >= 20 transacciones",
           detalles := [("dias_afectados", toString diasFrecuentes.length),
             ("max_tx_dia", toString (maximoN (diasFrecuentes.map (fun d => (grupoDia df d).length))))],
           recomendacion := "Verificar naturaleza de actividad comercial",
           puntos := 15 }]) ++
      (if (madrugada.length : ℚ) > (vr.length : ℚ) * (1 / 5) then
        [{ tipo := "Transacciones en Horario Inusual", severidad := "Baja",
           descripcion := toString madrugada.length ++ " TX entre 00:00 y 06:00",
           detalles := [("cantidad", toString madrugada.length),
             ("porcentaje", toString ((madrugada.length : ℚ) / (vr.length : ℚ) * 100))],
           recomendacion := "Validar motivo de operaciones nocturnas",
           puntos := 10 }]
       else []) ++
      (if (finSemana.length : ℚ) > (vr.length : ℚ) * (2 / 5) then
        [{ tipo := "Alta Actividad en Fin de Semana", severidad := "Baja",
           descripcion := toString finSemana.length ++ " TX en sábado/domingo",
           detalles := [("cantidad", toString finSemana.length),
             ("porcentaje", toString ((finSemana.length : ℚ) / (vr.length : ℚ) * 100))],
           recomendacion := "Verificar tipo de negocio y justificación",
           puntos := 8 }]
       else [])
  else []

/-- `_detectar_alta_tasa_rechazo`. -/
def detectarAltaTasaRechazo (df : DataFrame) : List Bandera :=
  if df.tieneEstado then
    if 0 < df.filas.length then
      let rechazadas := (df.filas.filter (fun t => coincideRechazadoRetornado t.estado)).length
      let tasa : ℚ := (rechazadas : ℚ) / (df.filas.length : ℚ) * 100
      if 20 ≤ tasa then
        [{ tipo := "Alta Tasa de Rechazo", severidad := "Media",
           descripcion := toString tasa ++ "% de TX rechazadas (" ++ toString rechazadas
             ++ " de " ++ toString df.filas.length ++ ")",
           detalles := [("tasa_rechazo", toString tasa),
             ("cantidad_rechazadas", toString rechazadas),
             ("total_tx", toString df.filas.length)],
           recomendacion := "Investigar causas de rechazos frecuentes - Posibles intentos fallidos",
           puntos := 12 }]
      else []
    else []
  else []

/-- Dated rows sorted by timestamp (`sort_values('FECHA')`, modelled as
a stable sort). -/
def filasOrdenadas (df : DataFrame) : List (Fecha × Transaccion) :=
  List.insertionSort (fun a b => a.1.ts ≤ b.1.ts) (filasFechadas df)

/-- `_detectar_cambios_comportamiento`. -/
def detectarCambiosComportamiento (df : DataFrame) : List Bandera :=
  if df.tieneFecha && df.tieneMonto then
    let vr := filasOrdenadas df
    if vr.length < 20 then []
    else
      let mitad := vr.length / 2
      let vol1 := ((vr.take mitad).map (fun p => p.2.monto)).sum
      let vol2 := ((vr.drop mitad).map (fun p => p.2.monto)).sum
      let freq1 := mitad
      let freq2 := vr.length - mitad
      (if vol1 > 0 then
        let variacion := (vol2 - vol1) / vol1 * 100
        if 200 ≤ |variacion| then
          [{ tipo := "Cambio Brusco en Volumen", severidad := "Alta",
             descripcion := "Variación de " ++ toString variacion ++ "% en volumen transaccional",
             detalles := [("variacion_porcentual", toString variacion),
               ("volumen_anterior", toString vol1),
               ("volumen_reciente", toString vol2)],
             recomendacion := "Solicitar justificación de cambio en actividad",
             puntos := 20 }]
        else []
       else []) ++
      (if 0 < freq1 then
        let variacionF : ℚ := ((freq2 : ℚ) - (freq1 : ℚ)) / (freq1 : ℚ) * 100
        if 150 ≤ |variacionF| then
          [{ tipo := "Cambio Brusco en Frecuencia", severidad := "Media",
             descripcion := "Variación de " ++ toString variacionF ++ "% en frecuencia de TX",
             detalles := [("variacion_porcentual", toString variacionF),
               ("tx_anterior", toString freq1),
               ("tx_reciente", toString freq2)],
             recomendacion := "Verificar cambios en operación del negocio",
             puntos := 15 }]
        else []
       else [])
  else []

/-- `_detectar_transacciones_riesgosas`: reserved extension point. -/
def detectarTransaccionesRiesgosas (_df : DataFrame) : List Bandera := []

/-- `_detectar_inconsistencias`. -/
def detectarInconsistencias (df : DataFrame) : List Bandera :=
  if df.tieneMonto then
    let invalidos := (df.filas.filter (fun t => t.monto ≤ 0)).length
    if 0 < invalidos then
      [{ tipo := "Datos Inconsistentes", severidad := "Baja",
         descripcion := toString invalidos ++ " TX con montos <= 0",
         detalles := [("cantidad", toString invalidos)],
         recomendacion := "Revisar calidad de datos",
         puntos := 5 }]
    else []
  else []

/-- `calcular_score_riesgo_interno`. -/
def calcularScoreRiesgoInterno (banderas : List Bandera) : ℤ :=
  min (banderas.map (fun b => b.puntos)).sum 100

/-- The result of `evaluar_banderas_riesgo`; the two `requiere_*` keys
are absent from the empty-input dict, hence `Option`. -/
structure EvaluacionBanderas where
  banderas : List Bandera
  totalBanderas : ℕ
  nivelAlerta : String
  scoreRiesgo : ℤ
  requiereReporteUiaf : Option Bool
  requiereInvestigacion : Option Bool
deriving Repr, DecidableEq

/-- `evaluar_banderas_riesgo`. -/
def evaluarBanderasRiesgo (df : DataFrame) : EvaluacionBanderas :=
  if df.filas.isEmpty then
    { banderas := [], totalBanderas := 0, nivelAlerta := "Sin datos",
      scoreRiesgo := 0, requiereReporteUiaf := none, requiereInvestigacion := none }
  else
    let bs := detectarAltoValor df ++ detectarVolumenInusual df
      ++ detectarFragmentacion df ++ detectarTemporalesSospechosos df
      ++ detectarAltaTasaRechazo df ++ detectarCambiosComportamiento df
      ++ detectarTransaccionesRiesgosas df ++ detectarInconsistencias df
    let score := calcularScoreRiesgoInterno bs
    { banderas := bs, totalBanderas := bs.length,
      nivelAlerta :=
        if score ≥ 70 ∨ bs.length ≥ 5 then "Crítico"
        else if score ≥ 50 ∨ bs.length ≥ 3 then "Alto"
        else if score ≥ 30 ∨ bs.length ≥ 1 then "Medio"
        else "Bajo",
      scoreRiesgo := score,
      requiereReporteUiaf := some (decide (score ≥ 70)),
      requiereInvestigacion := some (decide (score ≥ 50)) }

/-! ### src/characterization/behavior_metrics.py (`detectar_patrones_anomalos`) -/

/-- An amount-outlier entry.  The source stores `|x-μ|/σ`; its square
`(x-μ)²/σ²` is kept here to stay within exact arithmetic. -/
structure AnomaliaMonto where
  fecha : Option Fecha
  monto : ℚ
  desviacionCuad : ℚ
  tipo : String
deriving Repr, DecidableEq

/-- A daily-frequency outlier entry (deviation squared, as above). -/
structure AnomaliaFrecuencia where
  fecha : String
  cantidadTx : ℕ
  promedioNormal : ℚ
  desviacionCuad : ℚ
deriving Repr, DecidableEq

/-- A temporal-anomaly entry (`porcentaje` only for the unusual-hours
entry, `detalle` only for the burst entry). -/
structure AnomaliaTemporal where
  tipo : String
  cantidad : ℕ
  porcentaje : Option ℚ
  detalle : Option String
deriving Repr, DecidableEq

/-- The result of `detectar_patrones_anomalos`. -/
structure Anomalias where
  totalAnomalias : ℕ
  anomaliasMonto : List AnomaliaMonto
  anomaliasFrecuencia : List AnomaliaFrecuencia
  anomaliasTemporales : List AnomaliaTemporal
  nivelAlerta : String
deriving Repr, DecidableEq

/-- Amount outliers: `|x - μ| > k·σ`, expressed through the variance. -/
def anomaliasMontoDe (df : DataFrame) (k : ℚ) : List AnomaliaMonto :=
  let montos := df.filas.map (fun t => t.monto)
  if 3 < montos.length ∧ 0 < varianzaMuestral montos then
    df.filas.filterMap (fun t =>
      if (0 < t.monto - media montos ∧
            k ^ 2 * varianzaMuestral montos < (t.monto - media montos) ^ 2) ∨
         (0 < media montos - t.monto ∧
            k ^ 2 * varianzaMuestral montos < (media montos - t.monto) ^ 2) then
        some { fecha := t.fecha, monto := t.monto,
               desviacionCuad := (t.monto - media montos) ^ 2 / varianzaMuestral montos,
               tipo := if t.monto > media montos then "Alto" else "Bajo" }
      else none)
  else []

/-- Daily transaction counts, in ascending day order. -/
def conteosDiarios (df : DataFrame) : List ℚ :=
  (diasDe df).map (fun d => ((grupoDia df d).length : ℚ))

/-- Frequency outliers: days with `count > μ + k·σ` over the daily
counts, expressed through the variance. -/
def anomaliasFrecuenciaDe (df : DataFrame) (k : ℚ) : List AnomaliaFrecuencia :=
  let c := conteosDiarios df
  if 3 < (diasDe df).length ∧ 0 < varianzaMuestral c then
    (diasDe df).filterMap (fun d =>
      let n : ℚ := ((grupoDia df d).length : ℚ)
      if 0 < n - media c ∧ k ^ 2 * varianzaMuestral c < (n - media c) ^ 2 then
        some { fecha := diaStr d, cantidadTx := (grupoDia df d).length,
               promedioNormal := media c,
               desviacionCuad := (n - media c) ^ 2 / varianzaMuestral c }
      else none)
  else []

/-- Is an hour in the unusual window 00:00-05:00 or >= 22:00? -/
def horaInusual (f : Fecha) : Bool := f.hora < 5 || 22 ≤ f.hora

/-- The dated rows in the unusual-hours window. -/
def txHorarioInusual (df : DataFrame) : List (Fecha × Transaccion) :=
  (filasFechadas df).filter (fun p => horaInusual p.1)

/-- The unusual-hours entry: emitted whenever the filter is non-empty. -/
def entradaHorario (df : DataFrame) : List AnomaliaTemporal :=
  if (filasFechadas df).isEmpty then []
  else if (txHorarioInusual df).isEmpty then []
  else
    [{ tipo := "Horario inusual", cantidad := (txHorarioInusual df).length,
       porcentaje := some (((txHorarioInusual df).length : ℚ) / ((filasFechadas df).length : ℚ) * 100),
       detalle := none }]

/-- Differences of consecutive elements. -/
def difsConsecutivas : List ℤ → List ℤ
  | [] => []
  | [_] => []
  | a :: b :: t => (b - a) :: difsConsecutivas (b :: t)

/-- The burst entry: more than 5 inter-arrival gaps under 5 minutes. -/
def entradaRafaga (df : DataFrame) : List AnomaliaTemporal :=
  if 1 < (filasFechadas df).length then
    let ts := List.insertionSort (fun a b => a ≤ b) ((filasFechadas df).map (fun p => p.1.ts))
    let r := ((difsConsecutivas ts).filter (fun d => d < 5)).length
    if 5 < r then
      [{ tipo := "Ráfaga de transacciones", cantidad := r, porcentaje := none,
         detalle := some "Múltiples TX en corto período" }]
    else []
  else []

/-- The temporal-anomaly list (frequency block's `FECHA` guard and the
non-empty-dated-rows guard included). -/
def anomaliasTemporalesDe (df : DataFrame) : List AnomaliaTemporal :=
  if df.tieneFecha then
    if (filasFechadas df).isEmpty then []
    else entradaHorario df ++ entradaRafaga df
  else []

/-- `detectar_patrones_anomalos` with deviation threshold `k`
(default 2.5 standard deviations). -/
def detectarPatronesAnomalos (df : DataFrame) (k : ℚ := 5 / 2) : Anomalias :=
  if df.filas.isEmpty || !df.tieneMonto then
    { totalAnomalias := 0, anomaliasMonto := [], anomaliasFrecuencia := [],
      anomaliasTemporales := [], nivelAlerta := "Normal" }
  else
    let am := anomaliasMontoDe df k
    let af := if df.tieneFecha then anomaliasFrecuenciaDe df k else []
    let atmp := anomaliasTemporalesDe df
    let total := am.length + af.length + atmp.length
    { totalAnomalias := total, anomaliasMonto := am, anomaliasFrecuencia := af,
      anomaliasTemporales := atmp,
      nivelAlerta :=
        if total ≥ 10 then "Alto"
        else if total ≥ 5 then "Medio"
        else "Bajo" }

/-! ### Concrete inputs used by witnesses and counterexamples -/

/-- One paid transaction of amount 0 and one type; no `FECHA` column. -/
def dfUnaTx : DataFrame :=
  ⟨true, false, true, true, false, [⟨0, none, "Pagado", "PSE", ""⟩]⟩

/-- One dated transaction at 10:00 of a working day. -/
def dfUnaFilaFechada : DataFrame :=
  ⟨true, true, true, true, false, [⟨100, some ⟨10, 10, 0⟩, "Pagado", "PSE", ""⟩]⟩

/-- One transaction of $2,000M, which triggers the volume alerts. -/
def dfMontoGrande : DataFrame :=
  ⟨true, false, false, false, false, [⟨2000000000, none, "", "", ""⟩]⟩

/-- A frame with every column but no rows. -/
def dfSinFilas : DataFrame := ⟨true, true, true, true, true, []⟩

/-- Ten same-day transactions of equal amount, one of them at 23:00. -/
def dfDiezTx : DataFrame :=
  ⟨true, true, true, true, false,
    (List.range 9).map (fun i => ⟨1000, some ⟨10, 9 + i, 0⟩, "Pagado", "PSE", ""⟩) ++
      [⟨1000, some ⟨10, 23, 0⟩, "Pagado", "PSE", ""⟩]⟩

/-- Ambient state: clock at day 0, fixed uuid supply. -/
def entornoDia0 : Entorno := ⟨⟨0, 0, 0⟩, fun _ => "AAAA1111"⟩

/-- Ambient state: clock one day later, same uuid supply. -/
def entornoDia1 : Entorno := ⟨⟨1, 0, 0⟩, fun _ => "AAAA1111"⟩

/-- Ambient state: clock at day 0, a different uuid supply. -/
def entornoUuidB : Entorno := ⟨⟨0, 0, 0⟩, fun _ => "BBBB2222"⟩

/-! ### Range lemmas for the sub-scores -/

theorem gafiBase_rango (df : DataFrame) :
    0 ≤ calcularScoreGafiBase df ∧ calcularScoreGafiBase df ≤ 100 := by
  have hv : 0 ≤ gafiBloqueVolumen df := by
    unfold gafiBloqueVolumen; split_ifs <;> norm_num
  have hf : 0 ≤ gafiBloqueFrecuencia df := by
    unfold gafiBloqueFrecuencia
    try dsimp only
    split_ifs <;> norm_num
  have hd : 0 ≤ gafiBloqueDiversidad df := by
    unfold gafiBloqueDiversidad; split_ifs with h
    · exact le_min (by norm_num) (by positivity)
    · norm_num
  exact ⟨le_min (by omega) (by norm_num), min_le_right _ _⟩

theorem scoreUiaf_rango (df : DataFrame) :
    0 ≤ calcularScoreUiaf df ∧ calcularScoreUiaf df ≤ 100 := by
  unfold calcularScoreUiaf
  split_ifs with h
  · norm_num
  · have h1 : 0 ≤ uiafBloqueAltas df := by
      unfold uiafBloqueAltas; try dsimp only
      split_ifs <;> norm_num
    have h2 : 0 ≤ uiafBloqueFragmentacion df := by
      unfold uiafBloqueFragmentacion; try dsimp only
      split_ifs <;> norm_num
    have h3 : 0 ≤ uiafBloqueRechazo df := by
      unfold uiafBloqueRechazo; try dsimp only
      split_ifs <;> norm_num
    exact ⟨le_min (by omega) (by norm_num), min_le_right _ _⟩

theorem scoreOperativo_rango (df : DataFrame) :
    0 ≤ calcularScoreOperativo df ∧ calcularScoreOperativo df ≤ 100 := by
  unfold calcularScoreOperativo
  split_ifs with h
  · norm_num
  · have h1 : 0 ≤ opBloqueDiversidad df := by
      unfold opBloqueDiversidad; try dsimp only
      split_ifs <;> norm_num
    have h2 : 0 ≤ opBloqueVolatilidad df := by
      unfold opBloqueVolatilidad; try dsimp only
      split_ifs <;> norm_num
    have h3 : 0 ≤ opBloqueErrores df := by
      unfold opBloqueErrores; try dsimp only
      split_ifs <;> norm_num
    have h4 : 0 ≤ opBloqueSemanal df := by
      unfold opBloqueSemanal; try dsimp only
      split_ifs <;> norm_num
    have h5 : 0 ≤ opBloqueBeneficiarios df := by
      unfold opBloqueBeneficiarios; try dsimp only
      split_ifs <;> norm_num
    exact ⟨le_min (by omega) (by norm_num), min_le_right _ _⟩

theorem pyInt_de_rango {q : ℚ} (h0 : 0 ≤ q) (h1 : q ≤ 100) :
    0 ≤ pyInt q ∧ pyInt q ≤ 100 := by
  unfold pyInt
  rw [if_pos h0]
  refine ⟨Int.le_floor.mpr (by exact_mod_cast h0), ?_⟩
  have : (⌊q⌋ : ℚ) ≤ 100 := le_trans (Int.floor_le q) h1
  exact_mod_cast this

/-! ### Claims -/

/-- C9: `clasificar_nivel_riesgo` is total over ℤ and returns
"No Evaluado" exactly on the scores outside [0, 100]. -/
theorem clasificar_no_evaluado_fuera_de_rango (s : ℤ) :
    clasificarNivelRiesgo s = "No Evaluado" ↔ s < 0 ∨ 100 < s := by
  unfold clasificarNivelRiesgo
  split_ifs with h1 h2 h3 h4
  · exact iff_of_true rfl (by omega)
  · exact iff_of_false (by decide) (by omega)
  · exact iff_of_false (by decide) (by omega)
  · exact iff_of_false (by decide) (by omega)
  · exact iff_of_false (by decide) (by omega)

/-- C3: on an empty transaction set the full analysis returns the
canonical empty verdict — total 0, level "No Evaluado", no alerts, empty
risk matrix, the single insufficient-data recommendation — and the
red-flag engine likewise returns an empty flag list. -/
theorem analisis_vacio_canonico (df : DataFrame) (perfil : Option PerfilGafi)
    (cliente : String) (env : Entorno) (h : df.filas = []) :
    analizarRiesgoCliente df perfil cliente env = crearAnalisisVacio cliente env ∧
    (analizarRiesgoCliente df perfil cliente env).scoring.scoreTotal = 0 ∧
    (analizarRiesgoCliente df perfil cliente env).scoring.nivelRiesgo = "No Evaluado" ∧
    (analizarRiesgoCliente df perfil cliente env).alertas = [] ∧
    (analizarRiesgoCliente df perfil cliente env).matrizRiesgo = none ∧
    (analizarRiesgoCliente df perfil cliente env).recomendaciones
      = ["Sin datos suficientes para análisis"] ∧
    (evaluarBanderasRiesgo df).banderas = [] := by
  have he : df.filas.isEmpty = true := by simp [h]
  refine ⟨?_, ?_⟩
  · unfold analizarRiesgoCliente; rw [if_pos he]
  · unfold analizarRiesgoCliente evaluarBanderasRiesgo
    rw [if_pos he, if_pos he]
    simp [crearAnalisisVacio, crearScoreVacio]

theorem analisis_vacio_canonico_testigo :
    dfSinFilas.filas = [] ∧
    (analizarRiesgoCliente dfSinFilas none "Cliente" entornoDia0
        = crearAnalisisVacio "Cliente" entornoDia0 ∧
      (analizarRiesgoCliente dfSinFilas none "Cliente" entornoDia0).scoring.scoreTotal = 0 ∧
      (analizarRiesgoCliente dfSinFilas none "Cliente" entornoDia0).scoring.nivelRiesgo
        = "No Evaluado" ∧
      (analizarRiesgoCliente dfSinFilas none "Cliente" entornoDia0).alertas = [] ∧
      (analizarRiesgoCliente dfSinFilas none "Cliente" entornoDia0).matrizRiesgo = none ∧
      (analizarRiesgoCliente dfSinFilas none "Cliente" entornoDia0).recomendaciones
        = ["Sin datos suficientes para análisis"] ∧
      (evaluarBanderasRiesgo dfSinFilas).banderas = []) :=
  ⟨rfl, analisis_vacio_canonico dfSinFilas none "Cliente" entornoDia0 rfl⟩

section EvaluacionConcreta

/- The Batteries `Rat` operations are `@[irreducible]`, which blocks
`decide` on concrete rational computations; they are made reducible
locally for the concrete evaluations below. -/
attribute [local semireducible] Rat.add Rat.mul Rat.sub Rat.inv Rat.ofScientific

/-- C4 (code bug): the analysis output is not a function of the
transaction set alone — it changes with the system clock it reads
(`datetime.now()`), and with the `uuid4` draws once any alert fires. -/
theorem analisis_depende_del_reloj :
    analizarRiesgoCliente dfUnaFilaFechada none "Cliente" entornoDia0
      ≠ analizarRiesgoCliente dfUnaFilaFechada none "Cliente" entornoDia1 ∧
    analizarRiesgoCliente dfMontoGrande none "Cliente" entornoDia0
      ≠ analizarRiesgoCliente dfMontoGrande none "Cliente" entornoUuidB := by
  constructor
  · intro h
    exact absurd (congrArg AnalisisRiesgo.timestampAnalisis h) (by decide)
  · intro h
    exact absurd (congrArg AnalisisRiesgo.alertas h) (by decide)

/-- C7 counterexample: a non-empty input with fewer than 5 anomalies is
classified "Bajo", not "Normal". -/
theorem nivel_anomalias_no_es_normal :
    dfUnaTx.filas ≠ [] ∧
    (detectarPatronesAnomalos dfUnaTx).totalAnomalias < 5 ∧
    (detectarPatronesAnomalos dfUnaTx).nivelAlerta = "Bajo" ∧
    (detectarPatronesAnomalos dfUnaTx).nivelAlerta ≠ "Normal" := by decide

/-- C8 counterexample: one off-hours transaction out of ten (10% of the
total, well under 20%) already produces the unusual-hours anomaly. -/
theorem horario_inusual_sin_umbral :
    (detectarPatronesAnomalos dfDiezTx).anomaliasTemporales
      = [{ tipo := "Horario inusual", cantidad := 1, porcentaje := some 10,
           detalle := none }] ∧
    (txHorarioInusual dfDiezTx).length = 1 ∧
    dfDiezTx.filas.length = 10 ∧
    ¬(((txHorarioInusual dfDiezTx).length : ℚ)
        > (dfDiezTx.filas.length : ℚ) * (1 / 5)) := by decide

/-- C1 counterexample: a supplied GAFI profile dict is passed through
unclamped, so a profile score of 300 yields a GAFI sub-score of 300 and
a total of 120 — both outside [0, 100]. -/
theorem score_fuera_de_rango_con_perfil :
    (calcularScoreIntegral dfUnaTx (some ⟨some 300⟩)).scoreGafi = 300 ∧
    (calcularScoreIntegral dfUnaTx (some ⟨some 300⟩)).scoreTotal = 120 ∧
    ¬((calcularScoreIntegral dfUnaTx (some ⟨some 300⟩)).scoreGafi ≤ 100 ∧
      (calcularScoreIntegral dfUnaTx (some ⟨some 300⟩)).scoreTotal ≤ 100) := by decide

/-- C2 counterexample: with sub-scores (4, 0, 0) the code returns
`int(1.6) = 1`, while rounding to nearest would give 2. -/
theorem total_trunca_no_redondea :
    (calcularScoreIntegral dfUnaTx none).scoreGafi = 4 ∧
    (calcularScoreIntegral dfUnaTx none).scoreUiaf = 0 ∧
    (calcularScoreIntegral dfUnaTx none).scoreOperativo = 0 ∧
    (calcularScoreIntegral dfUnaTx none).scoreTotal = 1 ∧
    round (((calcularScoreIntegral dfUnaTx none).scoreGafi : ℚ) * (2 / 5)
      + ((calcularScoreIntegral dfUnaTx none).scoreUiaf : ℚ) * (7 / 20)
      + ((calcularScoreIntegral dfUnaTx none).scoreOperativo : ℚ) * (1 / 4)) = 2 ∧
    (calcularScoreIntegral dfUnaTx none).scoreTotal
      ≠ round (((calcularScoreIntegral dfUnaTx none).scoreGafi : ℚ) * (2 / 5)
        + ((calcularScoreIntegral dfUnaTx none).scoreUiaf : ℚ) * (7 / 20)
        + ((calcularScoreIntegral dfUnaTx none).scoreOperativo : ℚ) * (1 / 4)) := by
  decide

end EvaluacionConcreta

/-! ### C1 / C2: the integral score -/

theorem scoreGafi_proyeccion (df : DataFrame) (perfil : Option PerfilGafi)
    (hne : ¬df.filas.isEmpty = true) :
    (calcularScoreIntegral df perfil).scoreGafi = calcularScoreGafi df perfil := by
  unfold calcularScoreIntegral; rw [if_neg hne]

theorem scoreUiaf_proyeccion (df : DataFrame) (perfil : Option PerfilGafi)
    (hne : ¬df.filas.isEmpty = true) :
    (calcularScoreIntegral df perfil).scoreUiaf = calcularScoreUiaf df := by
  unfold calcularScoreIntegral; rw [if_neg hne]

theorem scoreOperativo_proyeccion (df : DataFrame) (perfil : Option PerfilGafi)
    (hne : ¬df.filas.isEmpty = true) :
    (calcularScoreIntegral df perfil).scoreOperativo = calcularScoreOperativo df := by
  unfold calcularScoreIntegral; rw [if_neg hne]

theorem scoreTotal_proyeccion (df : DataFrame) (perfil : Option PerfilGafi)
    (hne : ¬df.filas.isEmpty = true) :
    (calcularScoreIntegral df perfil).scoreTotal =
      pyInt ((calcularScoreGafi df perfil : ℚ) * (2 / 5)
        + (calcularScoreUiaf df : ℚ) * (7 / 20)
        + (calcularScoreOperativo df : ℚ) * (1 / 4)) := by
  unfold calcularScoreIntegral; rw [if_neg hne]

theorem nivel_proyeccion (df : DataFrame) (perfil : Option PerfilGafi)
    (hne : ¬df.filas.isEmpty = true) :
    (calcularScoreIntegral df perfil).nivelRiesgo =
      clasificarNivelRiesgo (calcularScoreIntegral df perfil).scoreTotal := by
  unfold calcularScoreIntegral; rw [if_neg hne]

theorem scoreGafi_rango (df : DataFrame) (perfil : Option PerfilGafi)
    (h : ∀ p s, perfil = some p → p.scoreRiesgo = some s → 0 ≤ s ∧ s ≤ 100) :
    0 ≤ calcularScoreGafi df perfil ∧ calcularScoreGafi df perfil ≤ 100 := by
  cases perfil with
  | none => exact gafiBase_rango df
  | some p =>
    cases hs : p.scoreRiesgo with
    | none =>
      have e : calcularScoreGafi df (some p) = calcularScoreGafiBase df := by
        simp [calcularScoreGafi, hs]
      rw [e]; exact gafiBase_rango df
    | some s =>
      have e : calcularScoreGafi df (some p) = s := by
        simp [calcularScoreGafi, hs]
      rw [e]; exact h p s rfl hs

theorem clasificar_en_rango {s : ℤ} (h0 : 0 ≤ s) (h1 : s ≤ 100) :
    (s ≤ 30 → clasificarNivelRiesgo s = "Bajo") ∧
    (30 < s → s ≤ 50 → clasificarNivelRiesgo s = "Medio") ∧
    (50 < s → s ≤ 75 → clasificarNivelRiesgo s = "Alto") ∧
    (75 < s → clasificarNivelRiesgo s = "Crítico") := by
  unfold clasificarNivelRiesgo
  refine ⟨?_, ?_, ?_, ?_⟩ <;> intros <;> split_ifs <;> first | rfl | omega

/-- C1 (amended): whenever the optionally supplied GAFI profile carries
a score inside [0, 100] — as every profile this repository produces
does — all three sub-scores and the total lie in [0, 100]; on non-empty
input the level is the pure step function of the total with breakpoints
30/50/75 (empty input instead yields the "No Evaluado" verdict). -/
theorem score_integral_en_rango (df : DataFrame) (perfil : Option PerfilGafi)
    (h : ∀ p s, perfil = some p → p.scoreRiesgo = some s → 0 ≤ s ∧ s ≤ 100) :
    (0 ≤ (calcularScoreIntegral df perfil).scoreGafi ∧
      (calcularScoreIntegral df perfil).scoreGafi ≤ 100) ∧
    (0 ≤ (calcularScoreIntegral df perfil).scoreUiaf ∧
      (calcularScoreIntegral df perfil).scoreUiaf ≤ 100) ∧
    (0 ≤ (calcularScoreIntegral df perfil).scoreOperativo ∧
      (calcularScoreIntegral df perfil).scoreOperativo ≤ 100) ∧
    (0 ≤ (calcularScoreIntegral df perfil).scoreTotal ∧
      (calcularScoreIntegral df perfil).scoreTotal ≤ 100) ∧
    (df.filas ≠ [] →
      ((calcularScoreIntegral df perfil).scoreTotal ≤ 30 →
        (calcularScoreIntegral df perfil).nivelRiesgo = "Bajo") ∧
      (30 < (calcularScoreIntegral df perfil).scoreTotal →
        (calcularScoreIntegral df perfil).scoreTotal ≤ 50 →
        (calcularScoreIntegral df perfil).nivelRiesgo = "Medio") ∧
      (50 < (calcularScoreIntegral df perfil).scoreTotal →
        (calcularScoreIntegral df perfil).scoreTotal ≤ 75 →
        (calcularScoreIntegral df perfil).nivelRiesgo = "Alto") ∧
      (75 < (calcularScoreIntegral df perfil).scoreTotal →
        (calcularScoreIntegral df perfil).nivelRiesgo = "Crítico")) := by
  by_cases he : df.filas.isEmpty = true
  · have h0 : calcularScoreIntegral df perfil = crearScoreVacio := by
      unfold calcularScoreIntegral; rw [if_pos he]
    rw [h0]
    have : df.filas = [] := List.isEmpty_iff.mp he
    refine ⟨by norm_num [crearScoreVacio], by norm_num [crearScoreVacio],
      by norm_num [crearScoreVacio], by norm_num [crearScoreVacio],
      fun hne => absurd this hne⟩
  · have hg := scoreGafi_rango df perfil h
    have hu := scoreUiaf_rango df
    have ho := scoreOperativo_rango df
    have hq0 : 0 ≤ (calcularScoreGafi df perfil : ℚ) * (2 / 5)
        + (calcularScoreUiaf df : ℚ) * (7 / 20)
        + (calcularScoreOperativo df : ℚ) * (1 / 4) := by
      have g0 : (0 : ℚ) ≤ (calcularScoreGafi df perfil : ℚ) := by exact_mod_cast hg.1
      have u0 : (0 : ℚ) ≤ (calcularScoreUiaf df : ℚ) := by exact_mod_cast hu.1
      have o0 : (0 : ℚ) ≤ (calcularScoreOperativo df : ℚ) := by exact_mod_cast ho.1
      nlinarith
    have hq1 : (calcularScoreGafi df perfil : ℚ) * (2 / 5)
        + (calcularScoreUiaf df : ℚ) * (7 / 20)
        + (calcularScoreOperativo df : ℚ) * (1 / 4) ≤ 100 := by
      have g1 : (calcularScoreGafi df perfil : ℚ) ≤ 100 := by exact_mod_cast hg.2
      have u1 : (calcularScoreUiaf df : ℚ) ≤ 100 := by exact_mod_cast hu.2
      have o1 : (calcularScoreOperativo df : ℚ) ≤ 100 := by exact_mod_cast ho.2
      nlinarith
    have ht : 0 ≤ (calcularScoreIntegral df perfil).scoreTotal ∧
        (calcularScoreIntegral df perfil).scoreTotal ≤ 100 := by
      rw [scoreTotal_proyeccion df perfil he]
      exact pyInt_de_rango hq0 hq1
    refine ⟨?_, ?_, ?_, ht, fun _ => ?_⟩
    · rw [scoreGafi_proyeccion df perfil he]; exact hg
    · rw [scoreUiaf_proyeccion df perfil he]; exact hu
    · rw [scoreOperativo_proyeccion df perfil he]; exact ho
    · rw [nivel_proyeccion df perfil he]
      exact clasificar_en_rango ht.1 ht.2

theorem score_integral_en_rango_testigo :
    0 ≤ (calcularScoreIntegral dfUnaTx none).scoreTotal ∧
      (calcularScoreIntegral dfUnaTx none).scoreTotal ≤ 100 :=
  (score_integral_en_rango dfUnaTx none
    (fun _ _ hp _ => Option.noConfusion hp)).2.2.2.1

/-- C2 (amended): on non-empty input (with the profile score, when one
is supplied, non-negative) the total is the weighted sum of the three
sub-scores truncated with `int()` — the floor, not the nearest
integer. -/
theorem total_es_piso_ponderado (df : DataFrame) (perfil : Option PerfilGafi)
    (hne : df.filas ≠ [])
    (h : ∀ p s, perfil = some p → p.scoreRiesgo = some s → 0 ≤ s) :
    (calcularScoreIntegral df perfil).scoreTotal =
      ⌊((calcularScoreIntegral df perfil).scoreGafi : ℚ) * (2 / 5)
        + ((calcularScoreIntegral df perfil).scoreUiaf : ℚ) * (7 / 20)
        + ((calcularScoreIntegral df perfil).scoreOperativo : ℚ) * (1 / 4)⌋ := by
  have he : ¬df.filas.isEmpty = true := by simp [hne]
  have hg : 0 ≤ calcularScoreGafi df perfil := by
    cases perfil with
    | none => exact (gafiBase_rango df).1
    | some p =>
      cases hs : p.scoreRiesgo with
      | none =>
        have e : calcularScoreGafi df (some p) = calcularScoreGafiBase df := by
          simp [calcularScoreGafi, hs]
        rw [e]; exact (gafiBase_rango df).1
      | some s =>
        have e : calcularScoreGafi df (some p) = s := by
          simp [calcularScoreGafi, hs]
        rw [e]; exact h p s rfl hs
  have hu := (scoreUiaf_rango df).1
  have ho := (scoreOperativo_rango df).1
  rw [scoreGafi_proyeccion df perfil he, scoreUiaf_proyeccion df perfil he,
    scoreOperativo_proyeccion df perfil he, scoreTotal_proyeccion df perfil he]
  have hq0 : 0 ≤ (calcularScoreGafi df perfil : ℚ) * (2 / 5)
      + (calcularScoreUiaf df : ℚ) * (7 / 20)
      + (calcularScoreOperativo df : ℚ) * (1 / 4) := by
    have g0 : (0 : ℚ) ≤ (calcularScoreGafi df perfil : ℚ) := by exact_mod_cast hg
    have u0 : (0 : ℚ) ≤ (calcularScoreUiaf df : ℚ) := by exact_mod_cast hu
    have o0 : (0 : ℚ) ≤ (calcularScoreOperativo df : ℚ) := by exact_mod_cast ho
    nlinarith
  unfold pyInt
  rw [if_pos hq0]

theorem total_es_piso_ponderado_testigo :
    dfUnaTx.filas ≠ [] ∧
    (calcularScoreIntegral dfUnaTx none).scoreTotal =
      ⌊((calcularScoreIntegral dfUnaTx none).scoreGafi : ℚ) * (2 / 5)
        + ((calcularScoreIntegral dfUnaTx none).scoreUiaf : ℚ) * (7 / 20)
        + ((calcularScoreIntegral dfUnaTx none).scoreOperativo : ℚ) * (1 / 4)⌋ :=
  ⟨by simp [dfUnaTx],
    total_es_piso_ponderado dfUnaTx none (by simp [dfUnaTx])
      (fun _ _ hp _ => Option.noConfusion hp)⟩

/-! ### C7 / C8: the anomaly detector -/

/-- C7 (amended): on non-empty input with an amount column the alert
level is "Bajo" below 5 total anomalies, "Medio" from 5, and "Alto" from
10; "Normal" is only returned on the empty / no-amount-column early
exit, never here. -/
theorem nivel_anomalias_umbrales (df : DataFrame) (h1 : df.filas ≠ [])
    (h2 : df.tieneMonto = true) :
    ((detectarPatronesAnomalos df).totalAnomalias < 5 →
      (detectarPatronesAnomalos df).nivelAlerta = "Bajo") ∧
    (5 ≤ (detectarPatronesAnomalos df).totalAnomalias →
      (detectarPatronesAnomalos df).totalAnomalias < 10 →
      (detectarPatronesAnomalos df).nivelAlerta = "Medio") ∧
    (10 ≤ (detectarPatronesAnomalos df).totalAnomalias →
      (detectarPatronesAnomalos df).nivelAlerta = "Alto") ∧
    (detectarPatronesAnomalos df).nivelAlerta ≠ "Normal" := by
  have key : ∀ n : ℕ,
      (n < 5 → (if n ≥ 10 then "Alto" else if n ≥ 5 then "Medio" else "Bajo") = "Bajo") ∧
      (5 ≤ n → n < 10 →
        (if n ≥ 10 then "Alto" else if n ≥ 5 then "Medio" else "Bajo") = "Medio") ∧
      (10 ≤ n → (if n ≥ 10 then "Alto" else if n ≥ 5 then "Medio" else "Bajo") = "Alto") ∧
      (if n ≥ 10 then "Alto" else if n ≥ 5 then "Medio" else "Bajo") ≠ "Normal" := by
    intro n
    refine ⟨?_, ?_, ?_, ?_⟩ <;> intros <;> split_ifs <;> first | rfl | omega | decide
  unfold detectarPatronesAnomalos
  rw [if_neg (by simp [List.isEmpty_iff, h1, h2])]
  dsimp only
  exact key _

theorem nivel_anomalias_umbrales_testigo :
    dfUnaTx.filas ≠ [] ∧ dfUnaTx.tieneMonto = true ∧
    ((detectarPatronesAnomalos dfUnaTx).totalAnomalias < 5 →
      (detectarPatronesAnomalos dfUnaTx).nivelAlerta = "Bajo") :=
  ⟨by simp [dfUnaTx], rfl,
    (nivel_anomalias_umbrales dfUnaTx (by simp [dfUnaTx]) rfl).1⟩

theorem mem_filasFechadas (df : DataFrame) (f : Fecha) (t : Transaccion) :
    (f, t) ∈ filasFechadas df ↔
      df.tieneFecha = true ∧ t ∈ df.filas ∧ t.fecha = some f := by
  unfold filasFechadas
  split_ifs with h
  · simp only [h, true_and, List.mem_filterMap, Option.map_eq_some', Prod.mk.injEq]
    constructor
    · rintro ⟨u, hu, a, hfa, rfl, rfl⟩
      exact ⟨hu, hfa⟩
    · rintro ⟨ht, hf⟩
      exact ⟨t, ht, f, hf, rfl, rfl⟩
  · simp [h]

/-- C8 (amended): on non-empty input with an amount column, the
unusual-hours temporal anomaly is reported if and only if at least one
transaction with a parsed timestamp falls in 00:00-05:00 or at/after
22:00 — the source applies no 20% concentration threshold (the entry
merely reports the percentage). -/
theorem horario_inusual_sii_existe (df : DataFrame) (h1 : df.filas ≠ [])
    (h2 : df.tieneMonto = true) :
    (∃ a ∈ (detectarPatronesAnomalos df).anomaliasTemporales,
        a.tipo = "Horario inusual") ↔
      (df.tieneFecha = true ∧
        ∃ t ∈ df.filas, ∃ f, t.fecha = some f ∧ (f.hora < 5 ∨ 22 ≤ f.hora)) := by
  have hred : (detectarPatronesAnomalos df).anomaliasTemporales
      = anomaliasTemporalesDe df := by
    unfold detectarPatronesAnomalos
    rw [if_neg (by simp [List.isEmpty_iff, h1, h2])]
  rw [hred]
  constructor
  · rintro ⟨a, ha, htipo⟩
    unfold anomaliasTemporalesDe at ha
    split_ifs at ha with hf hv
    · exact absurd ha (List.not_mem_nil a)
    · rcases List.mem_append.mp ha with hH | hR
      · unfold entradaHorario at hH
        split_ifs at hH with ht'
        · exact absurd hH (List.not_mem_nil a)
        · have hne : txHorarioInusual df ≠ [] := fun h0 => ht' (by rw [h0]; rfl)
          obtain ⟨p, hpmem⟩ := List.exists_mem_of_ne_nil _ hne
          obtain ⟨hmem, hhora⟩ := List.mem_filter.mp hpmem
          obtain ⟨hf', htmem, hfe⟩ := (mem_filasFechadas df p.1 p.2).mp hmem
          refine ⟨hf', p.2, htmem, p.1, hfe, ?_⟩
          unfold horaInusual at hhora
          simpa using hhora
      · unfold entradaRafaga at hR
        by_cases hlen : 1 < (filasFechadas df).length
        · rw [if_pos hlen] at hR
          dsimp only at hR
          split_ifs at hR with hr
          · rw [List.mem_singleton] at hR
            subst hR
            exact absurd htipo (by dsimp only; decide)
          · exact absurd hR (List.not_mem_nil a)
        · rw [if_neg hlen] at hR
          exact absurd hR (List.not_mem_nil a)
    · exact absurd ha (List.not_mem_nil a)
  · rintro ⟨hf, t, ht, f, hfecha, hhora⟩
    have hp : (f, t) ∈ filasFechadas df :=
      (mem_filasFechadas df f t).mpr ⟨hf, ht, hfecha⟩
    have hpin : (f, t) ∈ txHorarioInusual df := by
      unfold txHorarioInusual
      rw [List.mem_filter]
      refine ⟨hp, ?_⟩
      unfold horaInusual
      simpa using hhora
    have hvne : ¬(filasFechadas df).isEmpty = true := by
      intro h0
      rw [List.isEmpty_iff.mp h0] at hp
      exact absurd hp (List.not_mem_nil _)
    have htne : ¬(txHorarioInusual df).isEmpty = true := by
      intro h0
      rw [List.isEmpty_iff.mp h0] at hpin
      exact absurd hpin (List.not_mem_nil _)
    refine ⟨⟨"Horario inusual", (txHorarioInusual df).length,
      some (((txHorarioInusual df).length : ℚ) / ((filasFechadas df).length : ℚ) * 100),
      none⟩, ?_, rfl⟩
    unfold anomaliasTemporalesDe
    rw [if_pos hf, if_neg hvne]
    apply List.mem_append_left
    unfold entradaHorario
    rw [if_neg hvne, if_neg htne]
    exact List.mem_singleton_self _

theorem horario_inusual_sii_existe_testigo :
    dfDiezTx.filas ≠ [] ∧ dfDiezTx.tieneMonto = true ∧
    (dfDiezTx.tieneFecha = true ∧
      ∃ t ∈ dfDiezTx.filas, ∃ f, t.fecha = some f ∧ (f.hora < 5 ∨ 22 ≤ f.hora)) ∧
    (∃ a ∈ (detectarPatronesAnomalos dfDiezTx).anomaliasTemporales,
        a.tipo = "Horario inusual") :=
  ⟨by simp [dfDiezTx], rfl,
    ⟨rfl, ⟨1000, some ⟨10, 23, 0⟩, "Pagado", "PSE", ""⟩, by decide, ⟨10, 23, 0⟩,
      rfl, by decide⟩,
    (horario_inusual_sii_existe dfDiezTx (by simp [dfDiezTx]) rfl).mpr
      ⟨rfl, ⟨1000, some ⟨10, 23, 0⟩, "Pagado", "PSE", ""⟩, by decide, ⟨10, 23, 0⟩,
        rfl, by decide⟩⟩

/-! ### C5: the structuring / fragmentation flag -/

theorem esDiaFragmentado_sii (df : DataFrame) (d : ℤ) :
    esDiaFragmentado df d = true ↔ 5 ≤ (montosSimilaresDia df d).length := by
  unfold esDiaFragmentado
  simp only [Bool.and_eq_true, decide_eq_true_eq]
  constructor
  · exact fun h => h.2
  · intro h
    refine ⟨le_trans h ?_, h⟩
    unfold montosSimilaresDia
    exact List.length_filter_le _ _

theorem diasDe_ordenada (df : DataFrame) :
    (diasDe df).Pairwise (fun a b => a ≤ b) := by
  unfold diasDe
  exact List.sorted_insertionSort _ _

theorem find_primero_minimo {p : ℤ → Bool} :
    ∀ {l : List ℤ}, l.Pairwise (fun a b => a ≤ b) → ∀ {d : ℤ},
      l.find? p = some d → ∀ d' ∈ l, p d' = true → d ≤ d' := by
  intro l
  induction l with
  | nil => intro _ d h; exact absurd h (by simp)
  | cons a t ih =>
    intro hpw d hfind d' hd' hp'
    rcases List.pairwise_cons.mp hpw with ⟨hhead, htail⟩
    cases hpa : p a with
    | true =>
      rw [List.find?_cons_of_pos _ hpa] at hfind
      have : d = a := by injection hfind with h0; exact h0.symm
      subst this
      rcases List.mem_cons.mp hd' with rfl | hmem
      · exact le_refl d'
      · exact hhead d' hmem
    | false =>
      rw [List.find?_cons_of_neg _ (by simp [hpa])] at hfind
      rcases List.mem_cons.mp hd' with rfl | hmem
      · rw [hpa] at hp'; exact absurd hp' (by simp)
      · exact ih htail hfind d' hmem hp'

/-- C5: the fragmentation flag fires iff some calendar day has at least
5 transactions within ±20% of that day's mean amount; it is emitted at
most once, always with severity "Alta" and 30 points, and the flag
reported is that of the first (earliest) matching day. -/
theorem fragmentacion_sii_dia_similar (df : DataFrame) :
    (detectarFragmentacion df ≠ [] ↔
      (df.tieneMonto = true ∧ df.tieneFecha = true ∧
        ∃ d ∈ diasDe df, 5 ≤ (montosSimilaresDia df d).length)) ∧
    (detectarFragmentacion df).length ≤ 1 ∧
    (∀ b ∈ detectarFragmentacion df, b.severidad = "Alta" ∧ b.puntos = 30) ∧
    (df.tieneMonto = true → df.tieneFecha = true →
      ∀ d, (diasDe df).find? (esDiaFragmentado df) = some d →
        detectarFragmentacion df = [banderaFragmentacionDe df d] ∧
        ∀ d' ∈ diasDe df, esDiaFragmentado df d' = true → d ≤ d') := by
  by_cases hmf : (df.tieneMonto && df.tieneFecha) = true
  · obtain ⟨hm, hf⟩ := Bool.and_eq_true .. |>.mp hmf
    cases hfind : (diasDe df).find? (esDiaFragmentado df) with
    | some d =>
      have hD : detectarFragmentacion df = [banderaFragmentacionDe df d] := by
        unfold detectarFragmentacion
        rw [if_pos hmf, hfind]
      have hdmem : d ∈ diasDe df := List.mem_of_find?_eq_some hfind
      have hdp : esDiaFragmentado df d = true := List.find?_some hfind
      refine ⟨?_, ?_, ?_, ?_⟩
      · rw [hD]
        exact iff_of_true (by simp)
          ⟨hm, hf, d, hdmem, (esDiaFragmentado_sii df d).mp hdp⟩
      · rw [hD]; simp
      · rw [hD]
        intro b hb
        rw [List.mem_singleton] at hb
        subst hb
        exact ⟨rfl, rfl⟩
      · intro _ _ d0 hfind0
        injection hfind0 with h0
        subst h0
        exact ⟨hD, find_primero_minimo (diasDe_ordenada df) hfind⟩
    | none =>
      have hD : detectarFragmentacion df = [] := by
        unfold detectarFragmentacion
        rw [if_pos hmf, hfind]
      refine ⟨?_, by rw [hD]; simp, by rw [hD]; simp, ?_⟩
      · rw [hD]
        refine iff_of_false (by simp) ?_
        rintro ⟨_, _, d, hd, hsim⟩
        exact absurd ((esDiaFragmentado_sii df d).mpr hsim)
          (by simpa using List.find?_eq_none.mp hfind d hd)
      · intro _ _ d0 h0
        exact Option.noConfusion h0
  · have hD : detectarFragmentacion df = [] := by
      unfold detectarFragmentacion
      rw [if_neg hmf]
    refine ⟨?_, by rw [hD]; simp, by rw [hD]; simp, ?_⟩
    · rw [hD]
      refine iff_of_false (by simp) ?_
      rintro ⟨hm, hf, -⟩
      exact hmf (by rw [hm, hf]; rfl)
    · intro hm hf
      exact absurd (by rw [hm, hf]; rfl) hmf

/-! ### C6 / C10: alert prioritization -/

instance : IsTrans AlertaRiesgo claveLe :=
  ⟨fun a b c hab hbc => by unfold claveLe at *; omega⟩

instance : IsTotal AlertaRiesgo claveLe :=
  ⟨fun a b => by unfold claveLe; omega⟩

theorem ordenPrioridad_cota (p : String) :
    1 ≤ ordenPrioridad p ∧ ordenPrioridad p ≤ 5 := by
  unfold ordenPrioridad
  split_ifs <;> norm_num

/-- C6: the prioritized alert list is sorted by the key (priority rank,
days-to-act): priority ranks are non-decreasing (Crítica < Alta < Media
< Baja), no Alta alert ever precedes a Crítica alert, and within equal
priority the days-to-act are ascending. -/
theorem alertas_priorizadas_ordenadas (l : List AlertaRiesgo) :
    ((priorizarAlertas l).Pairwise claveLe) ∧
    ((priorizarAlertas l).Pairwise (fun a b =>
      ordenPrioridad a.prioridad ≤ ordenPrioridad b.prioridad)) ∧
    ((priorizarAlertas l).Pairwise (fun a b =>
      ¬(a.prioridad = "Alta" ∧ b.prioridad = "Crítica"))) ∧
    ((priorizarAlertas l).Pairwise (fun a b =>
      a.prioridad = b.prioridad → a.diasParaAccion ≤ b.diasParaAccion)) := by
  have hs : (priorizarAlertas l).Pairwise claveLe :=
    List.sorted_insertionSort claveLe l
  refine ⟨hs, hs.imp ?_, hs.imp ?_, hs.imp ?_⟩
  · intro a b h
    unfold claveLe at h
    omega
  · intro a b h hab
    obtain ⟨ha, hb⟩ := hab
    unfold claveLe at h
    rw [ha, hb] at h
    have e1 : ordenPrioridad "Alta" = 2 := by decide
    have e2 : ordenPrioridad "Crítica" = 1 := by decide
    omega
  · intro a b h hpq
    unfold claveLe at h
    rw [hpq] at h
    omega

/-- C10: prioritization returns a permutation of its input — no alert
dropped, duplicated or modified — and alerts with unrecognized priority
strings (rank 5) come after all recognized ones. -/
theorem alertas_priorizadas_permutacion (l : List AlertaRiesgo) :
    ((priorizarAlertas l).Perm l) ∧
    ((priorizarAlertas l).Pairwise (fun a b =>
      ordenPrioridad b.prioridad ≠ 5 → ordenPrioridad a.prioridad ≠ 5)) ∧
    (∀ p, ordenPrioridad p = 5 ↔
      (p ≠ "Crítica" ∧ p ≠ "Alta" ∧ p ≠ "Media" ∧ p ≠ "Baja")) := by
  refine ⟨List.perm_insertionSort claveLe l, ?_, ?_⟩
  · refine (List.sorted_insertionSort claveLe l).imp ?_
    intro a b h
    have ha := ordenPrioridad_cota a.prioridad
    have hb := ordenPrioridad_cota b.prioridad
    unfold claveLe at h
    omega
  · intro p
    unfold ordenPrioridad
    split_ifs with h1 h2 h3 h4 <;> simp_all

end AdamoPay
